import Mathlib

/-!
Shallow embedding of the assisted-grasping subsystem of
src/igibson/robots/manipulation_robot.py (class ManipulationRobot).

The physics engine (pybullet) is an external collaborator: contact
queries, ray casts, link poses and joint telemetry are modelled as
explicit per-step inputs or oracle functions, while the constraint
table and the finger collision filter - the only engine state this
subsystem reads back or relies on - are modelled as a small world
state.  Everything the grasping code itself computes (candidate
filtering, nearest-candidate choice, the lifecycle state machine,
constraint bookkeeping, snapshot and restore) is translated directly
from the source, one definition per Python function.  Numeric values
are rationals; body ids, link ids and joint handles are integers and
naturals.  Python code that raises (TypeError on a None handle,
assert statements, KeyError on a missing dict entry) is modelled with
Except results.
-/

namespace ManipulationRobot

attribute [local semireducible] Rat.mul Rat.add Rat.sub Rat.inv

/-- Decidable equality of Except results, so that concrete runs of the
fallible operations can be settled by decide. -/
instance {ε α : Type} [DecidableEq ε] [DecidableEq α] : DecidableEq (Except ε α) := fun a b =>
  match a, b with
  | Except.error e, Except.error e' =>
    if h : e = e' then Decidable.isTrue (congrArg Except.error h)
    else Decidable.isFalse (fun hh => h (Except.error.inj hh))
  | Except.ok x, Except.ok y =>
    if h : x = y then Decidable.isTrue (congrArg Except.ok h)
    else Decidable.isFalse (fun hh => h (Except.ok.inj hh))
  | Except.error _, Except.ok _ => Decidable.isFalse (fun hh => Except.noConfusion hh)
  | Except.ok _, Except.error _ => Decidable.isFalse (fun hh => Except.noConfusion hh)

/-- Rational 3-vector standing in for an (x, y, z) position. -/
abbrev Vec3 := ℚ × ℚ × ℚ

/-- AG_MODES (manipulation_robot.py line 33): the three grasping modes. -/
inductive GraspingMode
  | physical
  | assisted
  | sticky
deriving DecidableEq

/-- pybullet joint types as far as _establish_grasp distinguishes them. -/
inductive JointType
  | fixed
  | point2point
  | revolute
  | prismatic
deriving DecidableEq

/-- ASSIST_FRACTION (line 41). -/
def ASSIST_FRACTION : ℚ := 1

/-- ARTICULATED_ASSIST_FRACTION (line 42). -/
def ARTICULATED_ASSIST_FRACTION : ℚ := 7 / 10

/-- MIN_ASSIST_FORCE (line 43). -/
def MIN_ASSIST_FORCE : ℚ := 0

/-- MAX_ASSIST_FORCE (line 44). -/
def MAX_ASSIST_FORCE : ℚ := 500

/-- ASSIST_FORCE (line 45). -/
def ASSIST_FORCE : ℚ :=
  MIN_ASSIST_FORCE + (MAX_ASSIST_FORCE - MIN_ASSIST_FORCE) * ASSIST_FRACTION

/-- CONSTRAINT_VIOLATION_THRESHOLD (line 46). -/
def CONSTRAINT_VIOLATION_THRESHOLD : ℚ := 1 / 10

/-- RELEASE_WINDOW in seconds (line 47). -/
def RELEASE_WINDOW : ℚ := 1 / 30

/-- The fields of a pybullet contact record that _find_gripper_contacts
(lines 374-410) actually uses: bodyUniqueIdB and linkIndexB identify the
touched external body, linkIndexA is the robot finger link the contact was
reported on, positionOnA is the contact position on the robot. -/
structure ContactResult where
  bodyUniqueIdB : Int
  linkIndexB : Int
  linkIndexA : Int
  positionOnA : Vec3
deriving DecidableEq

/-- Deduplication keeping the first occurrence of each element; the model's
deterministic stand-in for Python set iteration order (the source builds
sets from iteration in list order). -/
def dedupFirst {α : Type} [DecidableEq α] : List α → List α
  | [] => []
  | a :: as => a :: (dedupFirst as).filter (fun x => x ≠ a)

/-- The self-contact filter of _find_gripper_contacts line 401: drop contact
records whose body is the sentinel -1 or the arm's end-effector body. -/
def contactFilter (eefBodyId : Int) (contacts : List ContactResult) : List ContactResult :=
  contacts.filter (fun c => c.bodyUniqueIdB ≠ -1 ∧ c.bodyUniqueIdB ≠ eefBodyId)

/-- The contact_data set of _find_gripper_contacts (without positions):
unique (body id, link id) pairs touched by the arm's fingers. -/
def contactPairs (eefBodyId : Int) (contacts : List ContactResult) : List (Int × Int) :=
  dedupFirst ((contactFilter eefBodyId contacts).map (fun c => (c.bodyUniqueIdB, c.linkIndexB)))

/-- The contact_data set of _find_gripper_contacts with
return_contact_positions=True: unique (body id, link id, position) triples. -/
def contactTriples (eefBodyId : Int) (contacts : List ContactResult) : List (Int × Int × Vec3) :=
  dedupFirst ((contactFilter eefBodyId contacts).map
    (fun c => (c.bodyUniqueIdB, c.linkIndexB, c.positionOnA)))

/-- The robot_contact_links dictionary of _find_gripper_contacts, read at one
key: the set of robot finger link ids in contact with the given
(body id, link id) pair.  Takes the already self-filtered contact list,
matching the source where the dictionary is filled inside the filtered loop. -/
def robotContactLinks (filteredContacts : List ContactResult) (pr : Int × Int) : List Int :=
  dedupFirst ((filteredContacts.filter
    (fun c => (c.bodyUniqueIdB, c.linkIndexB) = pr)).map (fun c => c.linkIndexA))

/-- The ray_data set of _find_gripper_raycast_collisions (lines 302-372).
The geometric ray casting itself is the physics engine's; the model receives
the raw (hit body, hit link) list of both rayTestBatch passes and performs
the filtering and deduplication of lines 365-370. -/
def raycastPairs (eefBodyId : Int) (rayResults : List (Int × Int)) : List (Int × Int) :=
  dedupFirst (rayResults.filter (fun r => r.1 ≠ -1 ∧ r.1 ≠ eefBodyId))

/-- Static per-robot data consumed by the grasping subsystem, one arm:
the arm's end-effector body and link id, the arm's finger link ids
(finger_link_ids), the full list of robot body ids (get_body_ids) and the
configured grasping mode. -/
structure RobotCfg where
  eefBodyId : Int
  eefLinkId : Int
  fingerLinkIds : List Int
  bodyIds : List Int
  graspingMode : GraspingMode

/-- Physics oracles used by _calculate_in_hand_object: linkDist is the
Euclidean distance from a candidate (body, link) to the gripper grasp
center (lines 758-770, collapsing getLinkState, the grasp-point offset and
the norm), and canAssistedGrasp is the scene's assistability predicate
(simulator.can_assisted_grasp, line 784). -/
structure SelectEnv where
  linkDist : Int × Int → ℚ
  canAssistedGrasp : Int → Int → Bool

/-- The candidates_set of _calculate_in_hand_object lines 746-750: the
finger-contact pairs, additionally intersected with the raycast-hit pairs
when the grasping mode is assisted. -/
def candidatesOf (cfg : RobotCfg) (contacts : List ContactResult)
    (rayResults : List (Int × Int)) : List (Int × Int) :=
  if cfg.graspingMode = GraspingMode.assisted then
    (contactPairs cfg.eefBodyId contacts).filter
      (fun pr => decide (pr ∈ raycastPairs cfg.eefBodyId rayResults))
  else
    contactPairs cfg.eefBodyId contacts

/-- touching_at_least_two_fingers of _calculate_in_hand_object lines 779-781:
the intersection of the arm's finger link ids with the robot links touching
the candidate has at least two elements. -/
def touchingAtLeastTwoFingers (cfg : RobotCfg) (contacts : List ContactResult)
    (pr : Int × Int) : Bool :=
  decide (2 ≤ (dedupFirst (cfg.fingerLinkIds.filter
    (fun l => decide (l ∈ robotContactLinks (contactFilter cfg.eefBodyId contacts) pr)))).length)

/-- Head of the stable ascending sort by distance of lines 773-774: the
candidate with minimal distance, earliest in the list on ties. -/
def pickNearest : List (Int × Int × ℚ) → Option (Int × Int × ℚ)
  | [] => none
  | c :: cs =>
    match pickNearest cs with
    | none => some c
    | some b => some (if b.2.2 < c.2.2 then b else c)

/-- _calculate_in_hand_object (lines 731-787).  Returns the chosen assisted
grasp candidate, Except.ok none when there is no eligible candidate, and
Except.error for the raises of the source: the ValueError on physical mode
(line 752) and the assert on a robot-self candidate (line 777). -/
def calculateInHandObject (cfg : RobotCfg) (env : SelectEnv)
    (contacts : List ContactResult) (rayResults : List (Int × Int)) :
    Except String (Option (Int × Int)) :=
  if cfg.graspingMode = GraspingMode.physical then
    Except.error ("Invalid grasping mode for calculating in hand object")
  else
    let candidatesSet := candidatesOf cfg contacts rayResults
    if candidatesSet.isEmpty then
      Except.ok none
    else
      let candidateData := candidatesSet.map (fun pr => (pr.1, pr.2, env.linkDist pr))
      match pickNearest candidateData with
      | none => Except.ok none
      | some (agBid, agLink, _) =>
        if agBid ∈ cfg.bodyIds then
          Except.error ("assisted grasp object cannot be the robot itself!")
        else if ¬ env.canAssistedGrasp agBid agLink ∨
            ¬ touchingAtLeastTwoFingers cfg contacts (agBid, agLink) then
          Except.ok none
        else
          Except.ok (some (agBid, agLink))

/-- One entry of the pybullet user constraint table, as created by
_establish_grasp and load_state.  maxForce is none right after
createConstraint and some after changeConstraint.  Frame orientations are
identity quaternions throughout the source and are elided. -/
structure Constraint where
  parentBodyId : Int
  parentLinkId : Int
  childBodyUniqueId : Int
  childLinkIndex : Int
  jointType : JointType
  parentFramePosition : Vec3
  childFramePosition : Vec3
  maxForce : Option ℚ
deriving DecidableEq

/-- The slice of engine state the grasping subsystem mutates and reads back:
the user constraint table with its next fresh handle, and the set of body
ids whose collisions with this arm's finger links are currently disabled
(the effect of set_coll_filter, lines 64-76). -/
structure PhysWorld where
  constraints : List (Nat × Constraint)
  nextHandle : Nat
  fingerCollisionDisabled : List Int
deriving DecidableEq

/-- Constraint table lookup by handle. -/
def lookupConstraint (w : PhysWorld) (h : Nat) : Option Constraint :=
  (w.constraints.find? (fun hc => hc.1 = h)).map (fun hc => hc.2)

/-- p.removeConstraint.  Passing None for the handle is a Python TypeError
(this is what _release_grasp line 442 does when no constraint exists). -/
def removeConstraintOp (w : PhysWorld) : Option Nat → Except String PhysWorld
  | none => Except.error ("removeConstraint: constraint id is None")
  | some h => Except.ok { w with constraints := w.constraints.filter (fun hc => hc.1 ≠ h) }

/-- p.createConstraint: allocates a fresh handle for the new constraint. -/
def createConstraintOp (w : PhysWorld) (c : Constraint) : Nat × PhysWorld :=
  (w.nextHandle,
   { w with constraints := (w.nextHandle, c) :: w.constraints, nextHandle := w.nextHandle + 1 })

/-- p.changeConstraint with maxForce. -/
def changeConstraintMaxForce (w : PhysWorld) (h : Nat) (f : ℚ) : PhysWorld :=
  { w with constraints := w.constraints.map (fun hc =>
      if hc.1 = h then (hc.1, { hc.2 with maxForce := some f }) else hc) }

/-- set_coll_filter (lines 64-76) restricted to this arm's finger links:
enabling removes the body from the disabled set, disabling inserts it. -/
def setCollFilter (w : PhysWorld) (targetBodyId : Int) (enable : Bool) : PhysWorld :=
  if enable then
    { w with fingerCollisionDisabled := w.fingerCollisionDisabled.filter (fun b => b ≠ targetBodyId) }
  else
    { w with fingerCollisionDisabled := dedupFirst (targetBodyId :: w.fingerCollisionDisabled) }

/-- The _ag_obj_cid_params record of _establish_grasp lines 1020-1025.
childFramePosition is absent until dump_state recomputes and stores it
(lines 1090-1101). -/
structure CidParams where
  childBodyUniqueId : Int
  childLinkIndex : Int
  jointType : JointType
  maxForce : ℚ
  childFramePosition : Option Vec3
deriving DecidableEq

/-- The per-arm assisted-grasping state of ManipulationRobot (lines 141-149):
agData is _ag_data, freezeJointPos is _ag_freeze_joint_pos (finger joint id
to frozen target position), objInHand is _ag_obj_in_hand (a body id),
objCid is _ag_obj_cid, cidParams is _ag_obj_cid_params (none models the
empty dict), freezeGripper is _ag_freeze_gripper (the initial Python None
and False are both falsy and collapse to false), releaseCounter is
_ag_release_counter. -/
structure AGState where
  agData : Option (Int × Int)
  freezeJointPos : List (Nat × ℚ)
  objInHand : Option Int
  objCid : Option Nat
  cidParams : Option CidParams
  freezeGripper : Bool
  releaseCounter : Option Nat
deriving DecidableEq

/-- The per-arm state right after __init__ (lines 141-149). -/
def initAGState : AGState :=
  { agData := none, freezeJointPos := [], objInHand := none, objCid := none,
    cidParams := none, freezeGripper := false, releaseCounter := none }

/-- Python truthiness of _ag_obj_in_hand as tested on line 1053: None and
the body id 0 are both falsy. -/
def objInHandTruthy (s : AGState) : Bool :=
  match s.objInHand with
  | none => false
  | some b => decide (b ≠ 0)

/-- _release_grasp (lines 434-447): removes the constraint (TypeError when
the handle is None), clears agData, the handle, the params and the freeze
flag, and starts the release counter at 0.  It does not clear objInHand. -/
def releaseGrasp (s : AGState) (w : PhysWorld) : Except String (AGState × PhysWorld) :=
  match removeConstraintOp w s.objCid with
  | Except.error e => Except.error e
  | Except.ok w' =>
    Except.ok
      ({ s with agData := none, objCid := none, cidParams := none,
                freezeGripper := false, releaseCounter := some 0 }, w')

/-- _handle_release_window (lines 789-806): increment the counter (a Python
TypeError when it is None), and once counter times render_timestep reaches
RELEASE_WINDOW, re-enable collisions with the held body and clear objInHand
and the counter. -/
def handleReleaseWindow (renderTimestep : ℚ) (s : AGState) (w : PhysWorld) :
    Except String (AGState × PhysWorld) :=
  match s.releaseCounter with
  | none => Except.error ("unsupported operand: None + 1")
  | some k =>
    let timeSinceRelease : ℚ := ((k + 1 : Nat) : ℚ) * renderTimestep
    if RELEASE_WINDOW ≤ timeSinceRelease then
      match s.objInHand with
      | none => Except.error ("set_coll_filter: target body is None")
      | some b =>
        Except.ok ({ s with objInHand := none, releaseCounter := none }, setCollFilter w b true)
    else
      Except.ok ({ s with releaseCounter := some (k + 1) }, w)

/-- Physics and scene oracles used by _establish_grasp:
jointIsRevoluteOrPrismatic is the getJointInfo joint-type test of line 968,
isSceneObjectWithFixedBase collapses the objects_by_id membership, hasattr
and fixed_base tests of lines 969-971, parentFramePosOf and childFramePosOf
are the pose transform chains of lines 985-1000 mapping the world contact
point into the end-effector and object frames, and fingerJointStates is the
current finger joint position snapshot of lines 1030-1032. -/
structure EstablishEnv where
  jointIsRevoluteOrPrismatic : Int → Int → Bool
  isSceneObjectWithFixedBase : Int → Bool
  parentFramePosOf : Vec3 → Vec3
  childFramePosOf : Int → Int → Vec3 → Vec3
  fingerJointStates : List (Nat × ℚ)

/-- _establish_grasp (lines 949-1032).  A no-op on ag_data None; otherwise
picks a point-to-point joint for an articulated child link of a fixed-base
scene object and a fixed joint otherwise, finds the contact position among
this step's finger contacts (an AssertionError when missing), creates the
constraint, sets its max force (ASSIST_FORCE, scaled by
ARTICULATED_ASSIST_FRACTION for point-to-point), records the params, sets
objInHand and the freeze flag, disables finger collisions with the body and
snapshots the finger joint positions. -/
def establishGrasp (cfg : RobotCfg) (env : EstablishEnv)
    (contacts : List ContactResult) (s : AGState) (w : PhysWorld)
    (agData : Option (Int × Int)) : Except String (AGState × PhysWorld) :=
  match agData with
  | none => Except.ok (s, w)
  | some (agBid, agLink) =>
    let jointType :=
      if agLink ≠ -1 ∧ env.jointIsRevoluteOrPrismatic agBid agLink ∧
          env.isSceneObjectWithFixedBase agBid then
        JointType.point2point
      else
        JointType.fixed
    match ((contactTriples cfg.eefBodyId contacts).filter
        (fun t => (t.1, t.2.1) = (agBid, agLink))).head? with
    | none => Except.error ("assert contact_pos is not None")
    | some t =>
      let contactPos := t.2.2
      let parentFramePos := env.parentFramePosOf contactPos
      let childFramePos := env.childFramePosOf agBid agLink contactPos
      let created := createConstraintOp w
        { parentBodyId := cfg.eefBodyId, parentLinkId := cfg.eefLinkId,
          childBodyUniqueId := agBid, childLinkIndex := agLink,
          jointType := jointType, parentFramePosition := parentFramePos,
          childFramePosition := childFramePos, maxForce := none }
      let cid := created.1
      let maxForce :=
        if jointType = JointType.fixed then ASSIST_FORCE
        else ASSIST_FORCE * ARTICULATED_ASSIST_FRACTION
      let w2 := changeConstraintMaxForce created.2 cid maxForce
      let w3 := setCollFilter w2 agBid false
      Except.ok
        ({ s with
            objCid := some cid,
            cidParams := some
              { childBodyUniqueId := agBid, childLinkIndex := agLink,
                jointType := jointType, maxForce := maxForce,
                childFramePosition := none },
            objInHand := some agBid,
            freezeGripper := true,
            freezeJointPos := env.fingerJointStates }, w3)

/-- The per-step per-arm inputs of _handle_assisted_grasping:
gripperCommand is the action slice for this arm's gripper (negative means
close), constraintViolation is get_constraint_violation per handle,
contacts and rayResults are this step's physics query results, sel and est
the oracles above, and renderTimestep is simulator.render_timestep. -/
structure StepEnv where
  gripperCommand : ℚ
  constraintViolation : Nat → ℚ
  contacts : List ContactResult
  rayResults : List (Int × Int)
  sel : SelectEnv
  est : EstablishEnv
  renderTimestep : ℚ

/-- The per-arm body of _handle_assisted_grasping (lines 1034-1065):
if the held-object field is truthy, run the release window when a counter
exists, otherwise release when the constraint violation exceeds the
threshold or the intent is open; if the held-object field is falsy and the
intent is close, compute the candidate, store it in agData and establish. -/
def handleAssistedGrasping (cfg : RobotCfg) (env : StepEnv)
    (s : AGState) (w : PhysWorld) : Except String (AGState × PhysWorld) :=
  if objInHandTruthy s then
    match s.releaseCounter with
    | some _ => handleReleaseWindow env.renderTimestep s w
    | none =>
      match s.objCid with
      | none => Except.error ("get_constraint_violation: constraint id is None")
      | some cid =>
        if CONSTRAINT_VIOLATION_THRESHOLD < env.constraintViolation cid ∨
            0 ≤ env.gripperCommand then
          releaseGrasp s w
        else
          Except.ok (s, w)
  else if env.gripperCommand < 0 then
    match calculateInHandObject cfg env.sel env.contacts env.rayResults with
    | Except.error e => Except.error e
    | Except.ok agData =>
      establishGrasp cfg env.est env.contacts { s with agData := agData } w agData
  else
    Except.ok (s, w)

/-- apply_action lines 412-420 for one arm: run assisted grasping when the
mode is not physical, then report whether the frozen finger-joint targets
are applied this step (the _ag_freeze_gripper check of line 419, which also
drives the control override of _deploy_control lines 425-432). -/
def applyActionStep (cfg : RobotCfg) (env : StepEnv) (s : AGState) (w : PhysWorld) :
    Except String (AGState × PhysWorld × Bool) :=
  match (if cfg.graspingMode ≠ GraspingMode.physical then
           handleAssistedGrasping cfg env s w
         else
           Except.ok (s, w)) with
  | Except.error e => Except.error e
  | Except.ok sw => Except.ok (sw.1, sw.2, sw.1.freezeGripper)

/-- IsGraspingState (lines 27-30). -/
inductive IsGraspingState
  | TRUE
  | UNKNOWN
  | FALSE
deriving DecidableEq

/-- The non-physical branch of is_grasping (lines 207-218): TRUE exactly
when the held-object field matches (is not None for an object-agnostic
query, equals the candidate id otherwise) and no release counter exists,
FALSE otherwise.  The candidate comparison of line 212 is modelled as
equality of ids. -/
def isGraspingAG (s : AGState) (candidateObj : Option Int) : IsGraspingState :=
  let isGraspingObj : Bool :=
    match candidateObj with
    | none => s.objInHand.isSome
    | some o => decide (s.objInHand = some o)
  if isGraspingObj ∧ s.releaseCounter = none then IsGraspingState.TRUE
  else IsGraspingState.FALSE

/-- is_grasping (lines 193-300).  The physical branch is the
gripper-controller telemetry heuristic over external controller state
(lines 219-297) and is passed in as an oracle result; the non-physical
branch is isGraspingAG. -/
def isGrasping (cfg : RobotCfg) (s : AGState)
    (physicalHeuristic : IsGraspingState) (candidateObj : Option Int) : IsGraspingState :=
  if cfg.graspingMode ≠ GraspingMode.physical then isGraspingAG s candidateObj
  else physicalHeuristic

/-- The per-arm section of the ManipulationRobot dump (lines 1102-1111). -/
structure AGDump where
  objInHand : Option Int
  releaseCounter : Option Nat
  freezeGripper : Bool
  freezeJointPos : List (Nat × ℚ)
  objCid : Option Nat
  cidParams : Option CidParams
deriving DecidableEq

/-- The record dump_state emits for one arm from a given state. -/
def mkDump (s : AGState) : AGDump :=
  { objInHand := s.objInHand, releaseCounter := s.releaseCounter,
    freezeGripper := s.freezeGripper, freezeJointPos := s.freezeJointPos,
    objCid := s.objCid, cidParams := s.cidParams }

/-- Pose oracle of dump_state: get_child_frame_pose (lines 1090-1095)
recomputing the child frame of the held body relative to the end effector
from current poses. -/
structure DumpEnv where
  getChildFramePose : Int → Int → Vec3

/-- The per-arm assisted-grasping part of dump_state (lines 1077-1115) for a
non-physical mode: when a constraint is active, recompute the child frame
pose and store it into the params in place (a KeyError when the params dict
is empty), then emit the record.  Returns the mutated state together with
the dump. -/
def dumpStateAG (env : DumpEnv) (s : AGState) : Except String (AGState × AGDump) :=
  match s.objCid with
  | some _ =>
    match s.cidParams with
    | none => Except.error ("KeyError: childBodyUniqueId")
    | some P =>
      let cf := env.getChildFramePose P.childBodyUniqueId P.childLinkIndex
      let s' := { s with cidParams := some { P with childFramePosition := some cf } }
      Except.ok (s', mkDump s')
  | none => Except.ok (s, mkDump s)

/-- The per-arm assisted-grasping part of load_state (lines 1117-1191) for a
non-physical mode: remove any active constraint, defensively re-enable
collisions with the previously held body, overwrite the per-arm fields from
the record, and when the record carries a constraint handle recreate the
attachment from the stored params (jointType, child frame, maxForce; a
KeyError when params or the stored child frame are missing) and re-disable
finger collisions with the restored held body.  The legacy field-name
fallback of lines 1139-1162 concerns records produced under the old schema
and is identity on records produced by dumpStateAG. -/
def loadStateAG (cfg : RobotCfg) (s : AGState) (w : PhysWorld) (d : AGDump) :
    Except String (AGState × PhysWorld) :=
  let w1 :=
    match s.objCid with
    | some c => { w with constraints := w.constraints.filter (fun hc => hc.1 ≠ c) }
    | none => w
  let w2 :=
    match s.objInHand with
    | some b => setCollFilter w1 b true
    | none => w1
  let s1 : AGState :=
    { agData := s.agData, freezeJointPos := d.freezeJointPos,
      objInHand := d.objInHand, objCid := d.objCid, cidParams := d.cidParams,
      freezeGripper := d.freezeGripper, releaseCounter := d.releaseCounter }
  match d.objCid with
  | none =>
    match s1.objInHand with
    | some b => Except.ok (s1, setCollFilter w2 b false)
    | none => Except.ok (s1, w2)
  | some _ =>
    match d.cidParams with
    | none => Except.error ("KeyError: obj_cid_params")
    | some P =>
      match P.childFramePosition with
      | none => Except.error ("KeyError: childFramePosition")
      | some cf =>
        let created := createConstraintOp w2
          { parentBodyId := cfg.eefBodyId, parentLinkId := cfg.eefLinkId,
            childBodyUniqueId := P.childBodyUniqueId,
            childLinkIndex := P.childLinkIndex,
            jointType := P.jointType,
            parentFramePosition := (0, 0, 0),
            childFramePosition := cf, maxForce := none }
        let w3 := changeConstraintMaxForce created.2 created.1 P.maxForce
        let s2 := { s1 with objCid := some created.1 }
        match s2.objInHand with
        | some b => Except.ok (s2, setCollFilter w3 b false)
        | none => Except.ok (s2, w3)

/-- States and worlds reachable from the initial per-arm state by successful
per-step runs of the assisted-grasping handler, for any per-step inputs. -/
inductive Reachable (cfg : RobotCfg) : AGState → PhysWorld → Prop
  | init (w : PhysWorld) : Reachable cfg initAGState w
  | step (env : StepEnv) (s : AGState) (w : PhysWorld) (s' : AGState) (w' : PhysWorld) :
      Reachable cfg s w →
      handleAssistedGrasping cfg env s w = Except.ok (s', w') →
      Reachable cfg s' w'

/-- The inductive invariant of the per-arm lifecycle: the constraint handle
and the params exist exactly in the Holding shape (held object present, no
release counter), the freeze flag is set exactly in the Holding shape, and
a release counter implies a truthy held object. -/
def lifecycleInv (s : AGState) : Prop :=
  (s.objCid.isSome ↔ (s.objInHand.isSome ∧ s.releaseCounter = none)) ∧
  (s.freezeGripper = true ↔ (s.objInHand.isSome ∧ s.releaseCounter = none)) ∧
  (s.cidParams.isSome ↔ s.objCid.isSome) ∧
  (s.releaseCounter.isSome → objInHandTruthy s = true)

/-! Concrete test fixtures: a single-body robot (body 10) whose end effector
is link 0 and whose finger links are 3 and 4, in sticky mode, together with
per-step inputs for the scenarios used below. -/

/-- A one-arm sticky-mode robot: one body 10, end-effector link 0, finger
links 3 and 4. -/
def cfg0 : RobotCfg :=
  { eefBodyId := 10, eefLinkId := 0, fingerLinkIds := [3, 4], bodyIds := [10],
    graspingMode := GraspingMode.sticky }

/-- Selection oracles: every candidate at distance 1, everything assistable. -/
def sel0 : SelectEnv :=
  { linkDist := fun _ => 1, canAssistedGrasp := fun _ _ => true }

/-- Establishment oracles: no articulated fixed-base objects, identity frame
transforms, no finger joints to freeze. -/
def est0 : EstablishEnv :=
  { jointIsRevoluteOrPrismatic := fun _ _ => false,
    isSceneObjectWithFixedBase := fun _ => false,
    parentFramePosOf := fun v => v,
    childFramePosOf := fun _ _ v => v,
    fingerJointStates := [] }

/-- Both finger links 3 and 4 touching external body 2 at its base link. -/
def contacts2 : List ContactResult :=
  [{ bodyUniqueIdB := 2, linkIndexB := -1, linkIndexA := 3, positionOnA := (0, 0, 0) },
   { bodyUniqueIdB := 2, linkIndexB := -1, linkIndexA := 4, positionOnA := (0, 0, 0) }]

/-- An empty physics world. -/
def w0 : PhysWorld := { constraints := [], nextHandle := 0, fingerCollisionDisabled := [] }

/-- Step inputs: close intent on body 2, no violation, timestep 1/120. -/
def envClose : StepEnv :=
  { gripperCommand := -1, constraintViolation := fun _ => 0, contacts := contacts2,
    rayResults := [], sel := sel0, est := est0, renderTimestep := 1 / 120 }

/-- Step inputs: open intent, otherwise as envClose. -/
def envOpen : StepEnv := { envClose with gripperCommand := 1 }

/-- Step inputs: close intent with constraint violation 0.15 reported. -/
def envViol : StepEnv := { envClose with constraintViolation := fun _ => 3 / 20 }

/-- The Holding state after one close step of envClose from the initial
state: body 2 held through constraint handle 0. -/
def s1After : AGState :=
  { agData := some (2, -1), freezeJointPos := [], objInHand := some 2,
    objCid := some 0,
    cidParams := some
      { childBodyUniqueId := 2, childLinkIndex := -1, jointType := JointType.fixed,
        maxForce := ASSIST_FORCE, childFramePosition := none },
    freezeGripper := true, releaseCounter := none }

/-- The world after that close step: one fixed constraint at handle 0 with
max force ASSIST_FORCE, collisions with body 2 disabled. -/
def w1After : PhysWorld :=
  { constraints :=
      [(0, { parentBodyId := 10, parentLinkId := 0, childBodyUniqueId := 2,
             childLinkIndex := -1, jointType := JointType.fixed,
             parentFramePosition := (0, 0, 0), childFramePosition := (0, 0, 0),
             maxForce := some ASSIST_FORCE })],
    nextHandle := 1, fingerCollisionDisabled := [2] }

/-- The Releasing state after a subsequent open step: the held-object field
still carries body 2, the constraint handle is cleared, the counter runs. -/
def s2After : AGState :=
  { agData := none, freezeJointPos := [], objInHand := some 2, objCid := none,
    cidParams := none, freezeGripper := false, releaseCounter := some 0 }

/-- The world after the open step: the constraint is removed, collisions
with body 2 are still disabled. -/
def w2After : PhysWorld :=
  { constraints := [], nextHandle := 1, fingerCollisionDisabled := [2] }

/-- One more release-window step of envOpen from s2After: the counter
advances to 1, the window (1/30 s at timestep 1/120) has not elapsed. -/
def s3After : AGState := { s2After with releaseCounter := some 1 }

/-- Both finger links touching external body 0 (a falsy body id). -/
def contactsZ : List ContactResult :=
  [{ bodyUniqueIdB := 0, linkIndexB := -1, linkIndexA := 3, positionOnA := (0, 0, 0) },
   { bodyUniqueIdB := 0, linkIndexB := -1, linkIndexA := 4, positionOnA := (0, 0, 0) }]

/-- Step inputs: close intent on body 0. -/
def envCloseZ : StepEnv := { envClose with contacts := contactsZ }

/-- Step inputs for the following step: close intent, violation 0.15
reported, no contacts this step. -/
def envZ2 : StepEnv :=
  { envClose with contacts := [], constraintViolation := fun _ => 3 / 20 }

/-- The Holding state after one close step of envCloseZ: body 0 held
through constraint handle 0. -/
def s1Z : AGState :=
  { agData := some (0, -1), freezeJointPos := [], objInHand := some 0,
    objCid := some 0,
    cidParams := some
      { childBodyUniqueId := 0, childLinkIndex := -1, jointType := JointType.fixed,
        maxForce := ASSIST_FORCE, childFramePosition := none },
    freezeGripper := true, releaseCounter := none }

/-- The world after that close step on body 0. -/
def w1Z : PhysWorld :=
  { constraints :=
      [(0, { parentBodyId := 10, parentLinkId := 0, childBodyUniqueId := 0,
             childLinkIndex := -1, jointType := JointType.fixed,
             parentFramePosition := (0, 0, 0), childFramePosition := (0, 0, 0),
             maxForce := some ASSIST_FORCE })],
    nextHandle := 1, fingerCollisionDisabled := [0] }

/-- A two-body robot (bodies 10 and 7) for the robot-self candidate case. -/
def cfgR : RobotCfg := { cfg0 with bodyIds := [10, 7] }

/-- Both finger links touching body 7, a body of the robot itself that is
not the end-effector body. -/
def contacts7 : List ContactResult :=
  [{ bodyUniqueIdB := 7, linkIndexB := -1, linkIndexA := 3, positionOnA := (0, 0, 0) },
   { bodyUniqueIdB := 7, linkIndexB := -1, linkIndexA := 4, positionOnA := (0, 0, 0) }]

/-- Selection oracles rejecting every candidate as non-assistable. -/
def selNoAssist : SelectEnv :=
  { linkDist := fun _ => 1, canAssistedGrasp := fun _ _ => false }

/-- Both finger links touching external body 9. -/
def contacts9 : List ContactResult :=
  [{ bodyUniqueIdB := 9, linkIndexB := -1, linkIndexA := 3, positionOnA := (0, 0, 0) },
   { bodyUniqueIdB := 9, linkIndexB := -1, linkIndexA := 4, positionOnA := (0, 0, 0) }]

/-- The robot of cfg0 in assisted (projection) mode. -/
def cfgA : RobotCfg := { cfg0 with graspingMode := GraspingMode.assisted }

/-- Dump oracle: child frame recomputed at the origin. -/
def denv0 : DumpEnv := { getChildFramePose := fun _ _ => (0, 0, 0) }

/-- The state dump_state produces from s1After: the child frame is
recomputed through denv0 and stored into the params. -/
def P1d : CidParams :=
  { childBodyUniqueId := 2, childLinkIndex := -1, jointType := JointType.fixed,
    maxForce := ASSIST_FORCE, childFramePosition := some (0, 0, 0) }

def s1d : AGState := { s1After with cidParams := some P1d }

/-- The state after restoring the dump of s1d: the attachment lives at the
fresh handle 1. -/
def s9 : AGState := { s1d with objCid := some 1 }

/-- The world after restoring the dump of s1d on w1After. -/
def w9 : PhysWorld :=
  { constraints :=
      [(1, { parentBodyId := 10, parentLinkId := 0, childBodyUniqueId := 2,
             childLinkIndex := -1, jointType := JointType.fixed,
             parentFramePosition := (0, 0, 0), childFramePosition := (0, 0, 0),
             maxForce := some ASSIST_FORCE })],
    nextHandle := 2, fingerCollisionDisabled := [2] }

/-! Helper lemmas about the lifecycle operations, leading to the inductive
invariant of reachable states. -/

theorem releaseGrasp_of_objCid_some (s : AGState) (w : PhysWorld) (c : Nat)
    (hc : s.objCid = some c) :
    releaseGrasp s w = Except.ok
      ({ s with agData := none, objCid := none, cidParams := none,
                freezeGripper := false, releaseCounter := some 0 },
       { w with constraints := w.constraints.filter (fun hc' => hc'.1 ≠ c) }) := by
  simp [releaseGrasp, removeConstraintOp, hc]

theorem establishGrasp_fields (cfg : RobotCfg) (env : EstablishEnv)
    (contacts : List ContactResult) (s s' : AGState) (w w' : PhysWorld)
    (agBid agLink : Int)
    (h : establishGrasp cfg env contacts s w (some (agBid, agLink)) = Except.ok (s', w')) :
    s'.objInHand = some agBid ∧ s'.objCid = some w.nextHandle ∧
    s'.cidParams.isSome = true ∧ s'.freezeGripper = true ∧
    s'.releaseCounter = s.releaseCounter := by
  simp only [establishGrasp] at h
  split at h
  · exact absurd h (by simp)
  · simp only [Except.ok.injEq, Prod.mk.injEq] at h
    obtain ⟨hs, hw⟩ := h
    subst hs
    simp [createConstraintOp]

theorem initAGState_inv : lifecycleInv initAGState := by
  constructor
  · simp [initAGState]
  constructor
  · simp [initAGState]
  constructor
  · simp [initAGState]
  · intro hk
    simp [initAGState] at hk

theorem handleReleaseWindow_preserves (dt : ℚ) (s s' : AGState) (w w' : PhysWorld)
    (hinv : lifecycleInv s)
    (h : handleReleaseWindow dt s w = Except.ok (s', w')) :
    lifecycleInv s' := by
  obtain ⟨h1, h2, h3, h4⟩ := hinv
  rcases hk : s.releaseCounter with _ | k
  · simp only [handleReleaseWindow, hk] at h
    exact absurd h (by simp)
  · have hcidnone : s.objCid = none := by
      rcases hcid : s.objCid with _ | c
      · rfl
      · have hx := h1.mp (by simp [hcid])
        rw [hk] at hx
        exact absurd hx.2 (by simp)
    have hfrz : s.freezeGripper = false := by
      rcases hf : s.freezeGripper
      · rfl
      · have hx := h2.mp hf
        rw [hk] at hx
        exact absurd hx.2 (by simp)
    have hparnone : s.cidParams = none := by
      rcases hp : s.cidParams with _ | P
      · rfl
      · have hx := h3.mp (by simp [hp])
        rw [hcidnone] at hx
        exact absurd hx (by simp)
    have htruthy : objInHandTruthy s = true := h4 (by simp [hk])
    rcases hb : s.objInHand with _ | b
    · rw [show objInHandTruthy s = false by simp [objInHandTruthy, hb]] at htruthy
      exact absurd htruthy (by simp)
    · by_cases hT : RELEASE_WINDOW ≤ ((k + 1 : Nat) : ℚ) * dt
      · simp only [handleReleaseWindow, hk, hb] at h
        rw [if_pos hT] at h
        simp only [Except.ok.injEq, Prod.mk.injEq] at h
        obtain ⟨hs, hw⟩ := h
        subst hs
        refine ⟨by simp [hcidnone], by simp [hfrz], by simp [hparnone, hcidnone], ?_⟩
        intro hx
        simp at hx
      · simp only [handleReleaseWindow, hk, hb] at h
        rw [if_neg hT] at h
        simp only [Except.ok.injEq, Prod.mk.injEq] at h
        obtain ⟨hs, hw⟩ := h
        subst hs
        refine ⟨by simp [hcidnone], by simp [hfrz], by simp [hparnone, hcidnone], ?_⟩
        intro _
        simpa [objInHandTruthy, hb] using htruthy

theorem handleAG_preserves (cfg : RobotCfg) (env : StepEnv) (s s' : AGState)
    (w w' : PhysWorld) (hinv : lifecycleInv s)
    (h : handleAssistedGrasping cfg env s w = Except.ok (s', w')) :
    lifecycleInv s' := by
  unfold handleAssistedGrasping at h
  split at h
  · rename_i ht
    split at h
    · exact handleReleaseWindow_preserves env.renderTimestep s s' w w' hinv h
    · rename_i hk
      split at h
      · exact absurd h (by simp)
      · rename_i c hc
        split at h
        · rw [releaseGrasp_of_objCid_some s w c hc] at h
          simp only [Except.ok.injEq, Prod.mk.injEq] at h
          obtain ⟨hs, hw⟩ := h
          subst hs
          refine ⟨by simp, by simp, by simp, ?_⟩
          intro _
          simpa [objInHandTruthy] using ht
        · simp only [Except.ok.injEq, Prod.mk.injEq] at h
          obtain ⟨hs, hw⟩ := h
          subst hs
          exact hinv
  · rename_i ht
    have htf : objInHandTruthy s = false := by
      rcases hx : objInHandTruthy s
      · rfl
      · exact absurd hx ht
    have hcnt : s.releaseCounter = none := by
      rcases hrc : s.releaseCounter with _ | k
      · rfl
      · have := hinv.2.2.2 (by simp [hrc])
        rw [htf] at this
        exact absurd this (by simp)
    split at h
    · split at h
      · exact absurd h (by simp)
      · rename_i agData hcalc
        cases agData with
        | none =>
          simp only [establishGrasp] at h
          simp only [Except.ok.injEq, Prod.mk.injEq] at h
          obtain ⟨hs, hw⟩ := h
          subst hs
          exact hinv
        | some pr =>
          obtain ⟨agBid, agLink⟩ := pr
          obtain ⟨hin, hcid, hpar, hfr, hrc⟩ :=
            establishGrasp_fields cfg env.est env.contacts _ s' w w' agBid agLink h
          have hrc' : s'.releaseCounter = none := by
            rw [hrc]
            exact hcnt
          refine ⟨?_, ?_, ?_, ?_⟩
          · simp [hcid, hin, hrc']
          · simp [hfr, hin, hrc']
          · simp [hpar, hcid]
          · intro hx
            rw [hrc'] at hx
            simp at hx
    · simp only [Except.ok.injEq, Prod.mk.injEq] at h
      obtain ⟨hs, hw⟩ := h
      subst hs
      exact hinv

theorem reachable_inv (cfg : RobotCfg) (s : AGState) (w : PhysWorld)
    (h : Reachable cfg s w) : lifecycleInv s := by
  induction h with
  | init w => exact initAGState_inv
  | step env s w s' w' hr hstep ih => exact handleAG_preserves cfg env s s' w w' ih hstep

/-- C1 (amended): for every arm and after every sequence of per-step
actions processed by the grasp lifecycle, the per-arm constraint handle is
set if and only if the held-object reference is set AND no release counter
is present (the Holding shape).  During the release window _release_grasp
has already cleared the handle while _ag_obj_in_hand is still set, so the
claimed plain iff with the held-object reference alone does not hold. -/
theorem constraint_handle_iff_holding (cfg : RobotCfg) (s : AGState) (w : PhysWorld)
    (h : Reachable cfg s w) :
    s.objCid.isSome ↔ (s.objInHand.isSome ∧ s.releaseCounter = none) :=
  (reachable_inv cfg s w h).1

/-- C1 counterexample: after the concrete two-step run close-then-open
(Idle to Holding to Releasing), the held-object reference is set while the
constraint handle is cleared, refuting the claimed iff. -/
theorem constraint_handle_iff_held_counterexample :
    handleAssistedGrasping cfg0 envClose initAGState w0 = Except.ok (s1After, w1After) ∧
    handleAssistedGrasping cfg0 envOpen s1After w1After = Except.ok (s2After, w2After) ∧
    s2After.objInHand.isSome = true ∧ s2After.objCid.isSome = false := by
  decide

/-- C1 witness: the amended iff evaluated at the concrete reachable
Releasing state of the close-then-open run. -/
theorem constraint_handle_iff_holding_witness :
    s2After.objCid.isSome ↔ (s2After.objInHand.isSome ∧ s2After.releaseCounter = none) :=
  constraint_handle_iff_holding cfg0 s2After w2After
    (Reachable.step envOpen s1After w1After s2After w2After
      (Reachable.step envClose initAGState w0 s1After w1After (Reachable.init w0) (by decide))
      (by decide))

/-- C2 (amended): in every per-step application of actions from a reachable
state, the frozen finger-joint targets are applied (the freeze flag is
true) exactly when the resulting state is Holding, that is when the
held-object reference is set and the release counter is absent.  During
the release window _release_grasp has set the flag to false although the
held-object reference is still set, so the claimed invariant - frozen
targets applied whenever the held-object reference is set, including the
whole release window - does not hold. -/
theorem freeze_flag_iff_holding (cfg : RobotCfg) (env : StepEnv) (s s1 : AGState)
    (w w1 : PhysWorld) (applied : Bool)
    (hreach : Reachable cfg s w)
    (h : applyActionStep cfg env s w = Except.ok (s1, w1, applied)) :
    applied = true ↔ (s1.objInHand.isSome ∧ s1.releaseCounter = none) := by
  by_cases hm : cfg.graspingMode = GraspingMode.physical
  · simp only [applyActionStep] at h
    rw [if_neg (by simp [hm])] at h
    simp only [Except.ok.injEq, Prod.mk.injEq] at h
    obtain ⟨hs, hw, ha⟩ := h
    subst hs
    rw [← ha]
    exact (reachable_inv cfg s w hreach).2.1
  · simp only [applyActionStep] at h
    rw [if_pos hm] at h
    rcases hr : handleAssistedGrasping cfg env s w with e | sw
    · rw [hr] at h
      exact absurd h (by simp)
    · rw [hr] at h
      simp only [Except.ok.injEq, Prod.mk.injEq] at h
      obtain ⟨hs, hw, ha⟩ := h
      subst hs
      rw [← ha]
      exact (reachable_inv cfg sw.1 sw.2
        (Reachable.step env s w sw.1 sw.2 hreach hr)).2.1

/-- C2 counterexample: in the concrete close-then-open run, the resulting
Releasing state still carries the held object but the freeze flag is
false, so the frozen targets are not applied during the release window. -/
theorem freeze_flag_during_release_counterexample :
    handleAssistedGrasping cfg0 envClose initAGState w0 = Except.ok (s1After, w1After) ∧
    handleAssistedGrasping cfg0 envOpen s1After w1After = Except.ok (s2After, w2After) ∧
    s2After.objInHand.isSome = true ∧ s2After.freezeGripper = false := by
  decide

/-- C2 witness: the amended claim evaluated at the concrete open step from
the reachable Holding state: the freeze flag is not applied and the
resulting state is indeed not Holding. -/
theorem freeze_flag_iff_holding_witness :
    false = true ↔ (s2After.objInHand.isSome ∧ s2After.releaseCounter = none) :=
  freeze_flag_iff_holding cfg0 envOpen s1After s2After w1After w2After false
    (Reachable.step envClose initAGState w0 s1After w1After (Reachable.init w0) (by decide))
    (by decide)

/-- C3 (amended): calling the release operation on an arm whose constraint
handle is absent - in particular an arm in Idle - raises (the physics
facade rejects removing a None constraint handle) instead of being a
silent no-op.  The per-step lifecycle itself never invokes release on an
Idle arm. -/
theorem release_on_idle_raises (s : AGState) (w : PhysWorld) (h : s.objCid = none) :
    releaseGrasp s w = Except.error ("removeConstraint: constraint id is None") := by
  simp [releaseGrasp, removeConstraintOp, h]

/-- C3 counterexample: release on the Idle initial state raises rather
than succeeding unchanged. -/
theorem release_on_idle_counterexample :
    releaseGrasp initAGState w0 = Except.error ("removeConstraint: constraint id is None") := by
  decide

/-- C3 witness: the amended claim evaluated at the concrete Releasing
state, whose constraint handle is also absent. -/
theorem release_on_idle_raises_witness :
    releaseGrasp s3After w2After = Except.error ("removeConstraint: constraint id is None") :=
  release_on_idle_raises s3After w2After rfl

/-- C4 (amended): in a non-physical mode, when the distance ranking picks a
nearest candidate, candidate selection returns none when fewer than two
distinct finger links touch that candidate or the external assistable
predicate rejects it; but when the nearest candidate body belongs to the
robot itself, selection raises an assertion error instead of returning
none. -/
theorem candidate_rejection (cfg : RobotCfg) (env : SelectEnv)
    (contacts : List ContactResult) (rayResults : List (Int × Int))
    (agBid agLink : Int) (d : ℚ)
    (hmode : cfg.graspingMode ≠ GraspingMode.physical)
    (hnear : pickNearest ((candidatesOf cfg contacts rayResults).map
      (fun pr => (pr.1, pr.2, env.linkDist pr))) = some (agBid, agLink, d)) :
    (agBid ∈ cfg.bodyIds →
      calculateInHandObject cfg env contacts rayResults =
        Except.error ("assisted grasp object cannot be the robot itself!")) ∧
    (agBid ∉ cfg.bodyIds →
      (env.canAssistedGrasp agBid agLink = false ∨
       touchingAtLeastTwoFingers cfg contacts (agBid, agLink) = false) →
      calculateInHandObject cfg env contacts rayResults = Except.ok none) := by
  have hne : (candidatesOf cfg contacts rayResults).isEmpty = false := by
    cases hc : candidatesOf cfg contacts rayResults with
    | nil =>
      rw [hc] at hnear
      simp [pickNearest] at hnear
    | cons a as => simp
  constructor
  · intro hmem
    simp [calculateInHandObject, hmode, hne, hnear, hmem]
  · intro hmem hrej
    rcases hrej with hr | hr <;>
      simp [calculateInHandObject, hmode, hne, hnear, hmem, hr]

/-- C4 counterexample: both fingers touch body 7, a body of the robot that
is not the end-effector body; selection raises the robot-self assertion
instead of returning none, although the two-finger test would pass. -/
theorem candidate_robot_self_counterexample :
    calculateInHandObject cfgR sel0 contacts7 [] =
      Except.error ("assisted grasp object cannot be the robot itself!") ∧
    touchingAtLeastTwoFingers cfgR contacts7 (7, -1) = true := by
  decide

/-- C4 witness: the amended claim evaluated at body 9 with a rejecting
assistable predicate: selection returns none. -/
theorem candidate_rejection_witness :
    ((9 : Int) ∈ cfg0.bodyIds →
      calculateInHandObject cfg0 selNoAssist contacts9 [] =
        Except.error ("assisted grasp object cannot be the robot itself!")) ∧
    ((9 : Int) ∉ cfg0.bodyIds →
      (selNoAssist.canAssistedGrasp 9 (-1) = false ∨
       touchingAtLeastTwoFingers cfg0 contacts9 (9, -1) = false) →
      calculateInHandObject cfg0 selNoAssist contacts9 [] = Except.ok none) :=
  candidate_rejection cfg0 selNoAssist contacts9 [] 9 (-1) 1 (by decide) (by decide)

/-- C5 (amended): for every arm in the Holding state whose held body id is
nonzero, a reported constraint violation above the threshold triggers the
transition to Releasing in that step regardless of the gripper intent.
The restriction to nonzero body ids is forced by the code: line 1053 tests
the held-object reference by Python truthiness, so a held body with id 0
is treated as no held object and the violation is never checked. -/
theorem holding_violation_releases (cfg : RobotCfg) (env : StepEnv) (s : AGState)
    (w : PhysWorld) (b : Int) (c : Nat)
    (hb : s.objInHand = some b) (hb0 : b ≠ 0)
    (hk : s.releaseCounter = none) (hc : s.objCid = some c)
    (hv : CONSTRAINT_VIOLATION_THRESHOLD < env.constraintViolation c) :
    handleAssistedGrasping cfg env s w = Except.ok
      ({ s with agData := none, objCid := none, cidParams := none,
                freezeGripper := false, releaseCounter := some 0 },
       { w with constraints := w.constraints.filter (fun hc' => hc'.1 ≠ c) }) := by
  have ht : objInHandTruthy s = true := by simp [objInHandTruthy, hb, hb0]
  simp only [handleAssistedGrasping, ht, hk, hc, if_true]
  rw [if_pos (Or.inl hv)]
  exact releaseGrasp_of_objCid_some s w c hc

/-- C5 counterexample: a reachable Holding state with held body id 0
(established from contacts with body 0).  With a violation of 0.15 above
the threshold 0.1 and close intent, the step does not transition to
Releasing: the truthiness test skips the violation check entirely. -/
theorem holding_violation_zero_bid_counterexample :
    handleAssistedGrasping cfg0 envCloseZ initAGState w0 = Except.ok (s1Z, w1Z) ∧
    s1Z.objInHand = some 0 ∧ s1Z.releaseCounter = none ∧ s1Z.objCid.isSome = true ∧
    CONSTRAINT_VIOLATION_THRESHOLD < envZ2.constraintViolation 0 ∧
    envZ2.gripperCommand < 0 ∧
    handleAssistedGrasping cfg0 envZ2 s1Z w1Z =
      Except.ok ({ s1Z with agData := none }, w1Z) ∧
    ({ s1Z with agData := none } : AGState).releaseCounter = none := by
  decide

/-- C5 witness: the amended claim evaluated at the concrete Holding state
on body 2 with violation 0.15 and close intent: the arm releases. -/
theorem holding_violation_releases_witness :
    handleAssistedGrasping cfg0 envViol s1After w1After = Except.ok
      ({ s1After with agData := none, objCid := none, cidParams := none,
                      freezeGripper := false, releaseCounter := some 0 },
       { w1After with constraints := w1After.constraints.filter (fun hc' => hc'.1 ≠ 0) }) :=
  holding_violation_releases cfg0 envViol s1After w1After 2 0 rfl (by decide) rfl rfl
    (by decide)

/-- C6: from any reachable Releasing state, a step increments the release
counter by one; once the accumulated simulated time (counter times step
duration) reaches RELEASE_WINDOW the arm transitions to Idle in that same
step - collision between the released body and the arm's finger links is
re-enabled and both the held-object reference and the counter are cleared -
and before that the state is otherwise unchanged. -/
theorem release_window_step (cfg : RobotCfg) (env : StepEnv) (s s' : AGState)
    (w w' : PhysWorld) (k : Nat) (b : Int)
    (hreach : Reachable cfg s w)
    (hk : s.releaseCounter = some k) (hb : s.objInHand = some b)
    (h : handleAssistedGrasping cfg env s w = Except.ok (s', w')) :
    if RELEASE_WINDOW ≤ ((k + 1 : Nat) : ℚ) * env.renderTimestep then
      s' = { s with objInHand := none, releaseCounter := none } ∧
      w' = setCollFilter w b true ∧ b ∉ w'.fingerCollisionDisabled
    else
      s' = { s with releaseCounter := some (k + 1) } ∧ w' = w := by
  have ht : objInHandTruthy s = true :=
    (reachable_inv cfg s w hreach).2.2.2 (by simp [hk])
  simp only [handleAssistedGrasping, ht, hk, if_true] at h
  simp only [handleReleaseWindow, hk, hb] at h
  by_cases hT : RELEASE_WINDOW ≤ ((k + 1 : Nat) : ℚ) * env.renderTimestep
  · rw [if_pos hT] at h
    rw [if_pos hT]
    simp only [Except.ok.injEq, Prod.mk.injEq] at h
    obtain ⟨hs, hw⟩ := h
    refine ⟨hs.symm, hw.symm, ?_⟩
    rw [← hw]
    simp [setCollFilter, List.mem_filter]
  · rw [if_neg hT] at h
    rw [if_neg hT]
    simp only [Except.ok.injEq, Prod.mk.injEq] at h
    obtain ⟨hs, hw⟩ := h
    refine ⟨?_, hw.symm⟩
    rw [← hs, hb]

/-- C6 witness: the claim evaluated at the concrete reachable Releasing
state with counter 0 and timestep 1/120: the window has not elapsed, the
counter advances to 1 and nothing else changes. -/
theorem release_window_step_witness :
    if RELEASE_WINDOW ≤ ((0 + 1 : Nat) : ℚ) * envOpen.renderTimestep then
      s3After = { s2After with objInHand := none, releaseCounter := none } ∧
      w2After = setCollFilter w2After 2 true ∧ (2 : Int) ∉ w2After.fingerCollisionDisabled
    else
      s3After = { s2After with releaseCounter := some (0 + 1) } ∧ w2After = w2After :=
  release_window_step cfg0 envOpen s2After s3After w2After w2After 0 2
    (Reachable.step envOpen s1After w1After s2After w2After
      (Reachable.step envClose initAGState w0 s1After w1After (Reachable.init w0) (by decide))
      (by decide))
    rfl rfl (by decide)

/-- C7: in assisted (projection) mode the candidate set passed to distance
ranking is exactly the intersection of the finger-contact pairs and the
raycast-hit pairs; in particular, whenever these two sets are disjoint,
candidate selection returns none even if raw contacts exist. -/
theorem assisted_candidates_intersection (cfg : RobotCfg) (env : SelectEnv)
    (contacts : List ContactResult) (rayResults : List (Int × Int))
    (hmode : cfg.graspingMode = GraspingMode.assisted) :
    (∀ pr : Int × Int, pr ∈ candidatesOf cfg contacts rayResults ↔
      (pr ∈ contactPairs cfg.eefBodyId contacts ∧
       pr ∈ raycastPairs cfg.eefBodyId rayResults)) ∧
    ((∀ pr ∈ contactPairs cfg.eefBodyId contacts,
        pr ∉ raycastPairs cfg.eefBodyId rayResults) →
      calculateInHandObject cfg env contacts rayResults = Except.ok none) := by
  constructor
  · intro pr
    simp [candidatesOf, hmode, List.mem_filter]
  · intro hdisj
    have hnil : candidatesOf cfg contacts rayResults = [] := by
      rw [candidatesOf, if_pos hmode, List.filter_eq_nil_iff]
      intro pr hpr
      simp [hdisj pr hpr]
    simp [calculateInHandObject, hmode, hnil]

/-- C7 witness: the claim evaluated in assisted mode with contacts on body
2 but the single raycast hit on body 5: the intersection test on the pair
(2, -1) and the resulting none. -/
theorem assisted_candidates_intersection_witness :
    ((2, -1) ∈ candidatesOf cfgA contacts2 [(5, -1)] ↔
      ((2, -1) ∈ contactPairs cfgA.eefBodyId contacts2 ∧
       (2, -1) ∈ raycastPairs cfgA.eefBodyId [(5, -1)])) ∧
    calculateInHandObject cfgA sel0 contacts2 [(5, -1)] = Except.ok none :=
  ⟨(assisted_candidates_intersection cfgA sel0 contacts2 [(5, -1)] rfl).1 (2, -1),
   (assisted_candidates_intersection cfgA sel0 contacts2 [(5, -1)] rfl).2 (by decide)⟩

/-- C8: whenever a grasp is established, the recorded params and the live
attachment agree, and the maximum holding force is ASSIST_FORCE for a
fixed attachment and ASSIST_FORCE times ARTICULATED_ASSIST_FRACTION (0.7)
for a point-to-point attachment - and these are the only two cases. -/
theorem establish_grasp_max_force (cfg : RobotCfg) (env : EstablishEnv)
    (contacts : List ContactResult) (s s' : AGState) (w w' : PhysWorld)
    (agBid agLink : Int)
    (h : establishGrasp cfg env contacts s w (some (agBid, agLink)) = Except.ok (s', w')) :
    ∃ cid P K, s'.objCid = some cid ∧ s'.cidParams = some P ∧
      lookupConstraint w' cid = some K ∧
      K.jointType = P.jointType ∧ K.maxForce = some P.maxForce ∧
      ((P.jointType = JointType.fixed ∧ P.maxForce = ASSIST_FORCE) ∨
       (P.jointType = JointType.point2point ∧
        P.maxForce = ASSIST_FORCE * ARTICULATED_ASSIST_FRACTION)) := by
  simp only [establishGrasp] at h
  split at h
  · exact absurd h (by simp)
  · rename_i t ht
    simp only [Except.ok.injEq, Prod.mk.injEq] at h
    obtain ⟨hs, hw⟩ := h
    subst hs
    subst hw
    by_cases hj : (agLink ≠ -1 ∧ env.jointIsRevoluteOrPrismatic agBid agLink = true ∧
        env.isSceneObjectWithFixedBase agBid = true)
    · refine ⟨w.nextHandle,
        { childBodyUniqueId := agBid, childLinkIndex := agLink,
          jointType := JointType.point2point,
          maxForce := ASSIST_FORCE * ARTICULATED_ASSIST_FRACTION,
          childFramePosition := none },
        { parentBodyId := cfg.eefBodyId, parentLinkId := cfg.eefLinkId,
          childBodyUniqueId := agBid, childLinkIndex := agLink,
          jointType := JointType.point2point,
          parentFramePosition := env.parentFramePosOf t.2.2,
          childFramePosition := env.childFramePosOf agBid agLink t.2.2,
          maxForce := some (ASSIST_FORCE * ARTICULATED_ASSIST_FRACTION) },
        by simp [hj, createConstraintOp], by simp [hj], ?_, rfl, rfl, Or.inr ⟨rfl, rfl⟩⟩
      simp [lookupConstraint, setCollFilter, changeConstraintMaxForce, createConstraintOp,
        List.find?, hj]
    · refine ⟨w.nextHandle,
        { childBodyUniqueId := agBid, childLinkIndex := agLink,
          jointType := JointType.fixed, maxForce := ASSIST_FORCE,
          childFramePosition := none },
        { parentBodyId := cfg.eefBodyId, parentLinkId := cfg.eefLinkId,
          childBodyUniqueId := agBid, childLinkIndex := agLink,
          jointType := JointType.fixed,
          parentFramePosition := env.parentFramePosOf t.2.2,
          childFramePosition := env.childFramePosOf agBid agLink t.2.2,
          maxForce := some ASSIST_FORCE },
        by simp [hj, createConstraintOp], by simp [hj], ?_, rfl, rfl, Or.inl ⟨rfl, rfl⟩⟩
      simp [lookupConstraint, setCollFilter, changeConstraintMaxForce, createConstraintOp,
        List.find?, hj]

/-- C8 witness: the claim evaluated at the concrete establishment of the
grasp on body 2 from the initial state. -/
theorem establish_grasp_max_force_witness :
    ∃ cid P K, s1After.objCid = some cid ∧ s1After.cidParams = some P ∧
      lookupConstraint w1After cid = some K ∧
      K.jointType = P.jointType ∧ K.maxForce = some P.maxForce ∧
      ((P.jointType = JointType.fixed ∧ P.maxForce = ASSIST_FORCE) ∨
       (P.jointType = JointType.point2point ∧
        P.maxForce = ASSIST_FORCE * ARTICULATED_ASSIST_FRACTION)) :=
  establish_grasp_max_force cfg0 est0 contacts2
    { initAGState with agData := some (2, -1) } s1After w0 w1After 2 (-1) (by decide)

/-- C9: snapshot followed by restore on a Holding-state arm - params
recorded, attachment live and matching the params, body held - recreates
an attachment with the same joint kind and the same maximum force as
before the round trip, and collision between the arm's finger links and
the held body is disabled afterward. -/
theorem snapshot_restore_roundtrip (cfg : RobotCfg) (denv : DumpEnv)
    (s s1 s2 : AGState) (w w2 : PhysWorld) (d : AGDump)
    (c : Nat) (K : Constraint) (P : CidParams) (b : Int)
    (hc : s.objCid = some c) (hP : s.cidParams = some P) (hb : s.objInHand = some b)
    (hrc : s.releaseCounter = none)
    (hK : lookupConstraint w c = some K)
    (hKj : K.jointType = P.jointType) (hKf : K.maxForce = some P.maxForce)
    (hdump : dumpStateAG denv s = Except.ok (s1, d))
    (hload : loadStateAG cfg s1 w d = Except.ok (s2, w2)) :
    ∃ c' K', s2.objCid = some c' ∧ lookupConstraint w2 c' = some K' ∧
      K'.jointType = K.jointType ∧ K'.maxForce = K.maxForce ∧
      b ∈ w2.fingerCollisionDisabled ∧ s2.objInHand = some b := by
  simp only [dumpStateAG, hc, hP] at hdump
  simp only [Except.ok.injEq, Prod.mk.injEq] at hdump
  obtain ⟨hs1, hd⟩ := hdump
  subst hs1
  subst hd
  simp only [loadStateAG, mkDump, hc, hP, hb] at hload
  simp only [Except.ok.injEq, Prod.mk.injEq] at hload
  obtain ⟨hs2, hw2⟩ := hload
  subst hs2
  subst hw2
  refine ⟨w.nextHandle,
    { parentBodyId := cfg.eefBodyId, parentLinkId := cfg.eefLinkId,
      childBodyUniqueId := P.childBodyUniqueId, childLinkIndex := P.childLinkIndex,
      jointType := P.jointType, parentFramePosition := (0, 0, 0),
      childFramePosition := denv.getChildFramePose P.childBodyUniqueId P.childLinkIndex,
      maxForce := some P.maxForce },
    by simp [createConstraintOp, setCollFilter], ?_, by rw [hKj], by rw [hKf], ?_, by simp⟩
  · simp [lookupConstraint, setCollFilter, changeConstraintMaxForce, createConstraintOp,
      List.find?]
  · simp [setCollFilter, dedupFirst]

/-- C9 witness: the claim evaluated at the concrete Holding state on body
2: dumping and restoring yields the attachment at handle 1 with the same
fixed joint kind and max force 500, collisions with body 2 disabled. -/
theorem snapshot_restore_roundtrip_witness :
    ∃ c' K', s9.objCid = some c' ∧ lookupConstraint w9 c' = some K' ∧
      K'.jointType = JointType.fixed ∧ K'.maxForce = some ASSIST_FORCE ∧
      (2 : Int) ∈ w9.fingerCollisionDisabled ∧ s9.objInHand = some 2 :=
  snapshot_restore_roundtrip cfg0 denv0 s1After s1d s9 w1After w9 (mkDump s1d) 0
    { parentBodyId := 10, parentLinkId := 0, childBodyUniqueId := 2,
      childLinkIndex := -1, jointType := JointType.fixed,
      parentFramePosition := (0, 0, 0), childFramePosition := (0, 0, 0),
      maxForce := some ASSIST_FORCE }
    { childBodyUniqueId := 2, childLinkIndex := -1, jointType := JointType.fixed,
      maxForce := ASSIST_FORCE, childFramePosition := none }
    2 rfl rfl rfl rfl (by decide) rfl rfl (by decide) (by decide)

/-- C10: in any non-physical grasping mode the isGrasping query never
returns UNKNOWN; it returns TRUE exactly when the held-object reference is
set (and equals the candidate id when one is given) and no release counter
is present, and FALSE otherwise - in particular FALSE during the whole
release window although the held-object reference is still set. -/
theorem is_grasping_nonphysical (cfg : RobotCfg) (s : AGState)
    (phys : IsGraspingState) (cand : Option Int)
    (hmode : cfg.graspingMode ≠ GraspingMode.physical) :
    isGrasping cfg s phys cand ≠ IsGraspingState.UNKNOWN ∧
    (isGrasping cfg s phys cand = IsGraspingState.TRUE ↔
      ((match cand with
        | none => s.objInHand.isSome = true
        | some o => s.objInHand = some o) ∧ s.releaseCounter = none)) ∧
    (isGrasping cfg s phys cand = IsGraspingState.FALSE ↔
      ¬ ((match cand with
          | none => s.objInHand.isSome = true
          | some o => s.objInHand = some o) ∧ s.releaseCounter = none)) := by
  simp only [isGrasping, if_pos hmode]
  cases cand with
  | none =>
    by_cases h1 : s.objInHand.isSome = true <;> by_cases h2 : s.releaseCounter = none <;>
      simp [isGraspingAG, h1, h2]
  | some o =>
    by_cases h1 : s.objInHand = some o <;> by_cases h2 : s.releaseCounter = none <;>
      simp [isGraspingAG, h1, h2]

/-- C10 witness: the claim evaluated at the concrete Releasing state with
an object-agnostic query: the query answers FALSE (never UNKNOWN) because
the release counter is present, although the held-object reference is
set. -/
theorem is_grasping_nonphysical_witness :
    isGrasping cfg0 s2After IsGraspingState.UNKNOWN none ≠ IsGraspingState.UNKNOWN ∧
    (isGrasping cfg0 s2After IsGraspingState.UNKNOWN none = IsGraspingState.TRUE ↔
      (s2After.objInHand.isSome = true ∧ s2After.releaseCounter = none)) ∧
    (isGrasping cfg0 s2After IsGraspingState.UNKNOWN none = IsGraspingState.FALSE ↔
      ¬ (s2After.objInHand.isSome = true ∧ s2After.releaseCounter = none)) :=
  is_grasping_nonphysical cfg0 s2After IsGraspingState.UNKNOWN none (by decide)

end ManipulationRobot
